import Mathlib

/-!
Verification of the snapshot-ingestion / alert-policy pipeline of
`web/api/octoprint_views.py` (TheSpaghettiDetective).

Shallow embedding conventions:
- timestamps are `Int` seconds since the Unix epoch; Python's
  `datetime.fromtimestamp(0)` / `fromtimestamp(1)` become `0` / `1`;
- optional Django datetime fields become `Option Int` (Python truthiness of a
  datetime field is `Option.isSome`);
- confidences and sensitivities are `ℚ`;
- external side effects (file saves, redis publishes, pause commands,
  notifications, timestamp writes) are recorded in an ordered `List Event`
  trace, in the order the Python code performs them;
- the fallible pipeline (`OctoPrintPicView.post`) returns a `PostResult`
  whose `response` is `Except PipelineError Unit`: an exception escaping the
  Django view (a failed inference call via `raise_for_status`, or an
  `AttributeError` from dereferencing a `None` current print) is an `error`
  response, a `Response({'result': 'ok'})` is `ok ()`.
-/

/-- One detection box of a frame: `(class_label, confidence, bbox)`; the bbox
plays no role in any decision, so only label and confidence are kept. -/
structure Detection where
  label : String
  confidence : ℚ
deriving DecidableEq, Repr

/-- The per-printer accumulated prediction state (`PrinterPrediction` model):
a smoothed failure score plus the number of frames folded into it. -/
structure PrinterPrediction where
  ewm_mean : ℚ
  frame_num : ℕ
deriving DecidableEq, Repr

/-- The fresh prediction state produced by `get_or_create` when a printer has
no stored prediction yet. -/
def PrinterPrediction.init : PrinterPrediction :=
  { ewm_mean := 0, frame_num := 0 }

/-- The per-print session (`Print` model): the four optional timestamps the
alert policy reads and writes. -/
structure PrintSession where
  paused_at : Option Int := none
  alerted_at : Option Int := none
  alert_acknowledged_at : Option Int := none
  alert_muted_at : Option Int := none
deriving DecidableEq, Repr

/-- `Printer.action_on_failure` choices (`NONE`/`ALERT`/`PAUSE`). -/
inductive ActionOnFailure where
  | NONE
  | ALERT
  | PAUSE
deriving DecidableEq, Repr

/-- The printer entity, restricted to the fields and predicate results the
pipeline consumes.  `should_watch` and `actively_printing` are the results of
the model methods of the same names (external to this file's source), carried
as fields. -/
structure Printer where
  watching : Bool
  action_on_failure : ActionOnFailure
  detective_sensitivity : ℚ
  current_print : Option PrintSession
  should_watch : Bool
  actively_printing : Bool
deriving DecidableEq, Repr

/-- Observable side effects of one request, in execution order. -/
inductive Event where
  | savedRaw
  | savedTagged
  | publishedPic
  | publishedPJson
  | inferenceCall
  | pauseCommand
  | setAlertAt (t : Int)
  | setPausedAt (t : Int)
  | notify (is_warning : Bool) (print_paused : Bool)
  | incrPredictionCount
deriving DecidableEq, Repr

/-- Ways a scored frame's pipeline run can abort with an exception. -/
inductive PipelineError where
  | inferenceFailure
  | noneDereference
deriving DecidableEq, Repr

/-- The outcome of one `OctoPrintPicView.post` request: HTTP-level response,
the printer state after the request, the persisted prediction state after the
request, and the ordered side-effect trace. -/
structure PostResult where
  response : Except PipelineError Unit
  printer : Printer
  stored_pred : Option PrinterPrediction
  events : List Event
deriving Repr

/-- `ALERT_COOLDOWN_SECONDS = 120` (module constant of the source file). -/
def ALERT_COOLDOWN_SECONDS : Int := 120

/-- Modelled from the spec: the base failing threshold of `lib/prediction`
(not under `src/`); the spec fixes no numeric value, only that the threshold
is positive, scales up with the escalating factor and down with higher
sensitivity. -/
def THRESHOLD_FAILING : ℚ := 2/5

/-- Modelled from the spec: `lib/prediction.VISUALIZATION_THRESH` (not under
`src/`), the fixed confidence threshold for rendering a detection box,
independent of sensitivity. -/
def VISUALIZATION_THRESH : ℚ := 1/3

/-- Modelled from the spec:
`lib/prediction.update_prediction_with_detections` (not under `src/`) — the
DetectionIngestor/FailureScorer update: fold a frame's detections into the
session's smoothed score and bump the frame count ("smoothed score + count"
representation of the evidence window). -/
def update_prediction_with_detections (prediction : PrinterPrediction)
    (detections : List Detection) : PrinterPrediction :=
  let p := (detections.map Detection.confidence).sum
  { ewm_mean := (prediction.ewm_mean * (prediction.frame_num : ℚ) + p) /
      ((prediction.frame_num : ℚ) + 1),
    frame_num := prediction.frame_num + 1 }

/-- Modelled from the spec: `lib/prediction.is_failing` (not under `src/`) —
`isFailing(session, sensitivity, escalatingFactor)`.  Empty evidence is never
failing; otherwise the smoothed score is compared against a threshold that a
lower escalating factor makes easier to cross and a higher sensitivity makes
easier to cross. -/
def is_failing (prediction : PrinterPrediction) (detective_sensitivity : ℚ)
    (escalating_factor : ℚ) : Bool :=
  if prediction.frame_num = 0 then false
  else decide
    (THRESHOLD_FAILING * escalating_factor / detective_sensitivity <
      prediction.ewm_mean)

/-- Modelled from the spec: `Printer.set_alert` (`app/models.py`, not under
`src/`) — "mark alert fired": set the current print's `alerted_at` to now. -/
def Printer.set_alert (printer : Printer) (now : Int) : Printer × List Event :=
  match printer.current_print with
  | none => (printer, [])
  | some cp =>
    ({ printer with current_print := some { cp with alerted_at := some now } },
     [Event.setAlertAt now])

/-- Modelled from the spec: `Printer.pause_print` (`app/models.py`, not under
`src/`) — invoke the external pause command and set the current print's
`paused_at` to now if not already set. -/
def Printer.pause_print (printer : Printer) (now : Int) : Printer × List Event :=
  match printer.current_print with
  | none => (printer, [Event.pauseCommand])
  | some cp =>
    match cp.paused_at with
    | some _ => (printer, [Event.pauseCommand])
    | none =>
      ({ printer with current_print := some { cp with paused_at := some now } },
       [Event.pauseCommand, Event.setPausedAt now])

/-- Modelled from the spec: the external human acknowledge action (§4.1) —
always overwrites the current print's `alert_acknowledged_at` with now. -/
def Printer.acknowledge (printer : Printer) (now : Int) : Printer :=
  match printer.current_print with
  | none => printer
  | some cp =>
    { printer with current_print := some { cp with alert_acknowledged_at := some now } }

/-- `alert_suppressed(printer)` of `web/api/octoprint_views.py`, with
`timezone.now()` passed explicitly. -/
def alert_suppressed (now : Int) (printer : Printer) : Bool :=
  if printer.watching = false then true
  else
    match printer.current_print with
    | none => true
    | some cp =>
      if cp.alert_muted_at.isSome then true
      else decide (now - cp.alert_acknowledged_at.getD 0 < ALERT_COOLDOWN_SECONDS)

/-- `alert_if_needed(printer)` of `web/api/octoprint_views.py`.  Returns the
printer state after the call and the ordered side-effect trace
(`send_failure_alert(printer, is_warning=True, print_paused=False)` is the
`notify true false` event). -/
def alert_if_needed (now : Int) (printer : Printer) : Printer × List Event :=
  if alert_suppressed now printer = true then (printer, [])
  else
    match printer.current_print with
    | none => (printer, [])
    | some cp =>
      let last_acknowledged := cp.alert_acknowledged_at.getD 1
      let last_alerted := cp.alerted_at.getD 0
      if last_alerted > last_acknowledged then (printer, [])
      else
        let r := printer.set_alert now
        (r.1, r.2 ++ [Event.notify true false])

/-- `pause_if_needed(printer)` of `web/api/octoprint_views.py`. -/
def pause_if_needed (now : Int) (printer : Printer) : Printer × List Event :=
  if alert_suppressed now printer = true then (printer, [])
  else
    match printer.current_print with
    | none => (printer, [])
    | some cp =>
      let last_acknowledged := cp.alert_acknowledged_at.getD 1
      let last_alerted := cp.alerted_at.getD 0
      if printer.action_on_failure = ActionOnFailure.PAUSE ∧ cp.paused_at = none then
        let r1 := printer.pause_print now
        let r2 := r1.1.set_alert now
        (r2.1, r1.2 ++ r2.2 ++ [Event.notify false true])
      else if ¬ last_alerted > last_acknowledged then
        let r := printer.set_alert now
        (r.1, r.2 ++ [Event.notify false false])
      else (printer, [])

/-- `OctoPrintPicView.post` of `web/api/octoprint_views.py`.
`escalating_factor` stands for `settings.ESCALATING_FACTOR` (a configurable
constant), `stored_pred` for the persisted `PrinterPrediction` row looked up
by `get_or_create`, and `inference` for the outcome of the request to the
inference service (`Except.error` when the transport fails or
`raise_for_status` raises on a non-success HTTP status). -/
def post (escalating_factor : ℚ) (now : Int) (printer : Printer)
    (stored_pred : Option PrinterPrediction)
    (inference : Except Unit (List Detection)) : PostResult :=
  if printer.should_watch = false ∨ printer.actively_printing = false then
    { response := Except.ok (), printer := printer, stored_pred := stored_pred,
      events := [Event.savedRaw, Event.publishedPic] }
  else
    match inference with
    | Except.error _ =>
      { response := Except.error PipelineError.inferenceFailure,
        printer := printer, stored_pred := stored_pred,
        events := [Event.savedRaw, Event.inferenceCall] }
    | Except.ok detections =>
      let prediction := update_prediction_with_detections
        (stored_pred.getD PrinterPrediction.init) detections
      let dispatched :=
        if is_failing prediction printer.detective_sensitivity escalating_factor
            = true then
          pause_if_needed now printer
        else if is_failing prediction printer.detective_sensitivity 1 = true then
          alert_if_needed now printer
        else (printer, [])
      match dispatched.1.current_print with
      | none =>
        { response := Except.error PipelineError.noneDereference,
          printer := dispatched.1, stored_pred := some prediction,
          events := [Event.savedRaw, Event.inferenceCall, Event.savedTagged,
            Event.publishedPic, Event.publishedPJson] ++ dispatched.2 }
      | some _ =>
        { response := Except.ok (), printer := dispatched.1,
          stored_pred := some prediction,
          events := [Event.savedRaw, Event.inferenceCall, Event.savedTagged,
            Event.publishedPic, Event.publishedPJson] ++ dispatched.2 ++
            [Event.incrPredictionCount] }

/-- A concrete watching, actively-printing printer with sensitivity 1, used by
the concrete instantiations below. -/
def mkPrinter (action : ActionOnFailure) (cp : Option PrintSession) : Printer :=
  { watching := true, action_on_failure := action, detective_sensitivity := 1,
    current_print := cp, should_watch := true, actively_printing := true }

/-! ### Helper lemmas about the suppression gate and the policy functions -/

theorem alert_suppressed_of_none (now : Int) (printer : Printer)
    (h : printer.current_print = none) : alert_suppressed now printer = true := by
  unfold alert_suppressed
  rw [h]
  split <;> rfl

theorem alert_if_needed_of_suppressed (now : Int) (printer : Printer)
    (h : alert_suppressed now printer = true) :
    alert_if_needed now printer = (printer, []) := by
  unfold alert_if_needed
  simp [h]

theorem pause_if_needed_of_suppressed (now : Int) (printer : Printer)
    (h : alert_suppressed now printer = true) :
    pause_if_needed now printer = (printer, []) := by
  unfold pause_if_needed
  simp [h]

theorem alert_suppressed_eq_false_iff (now : Int) (printer : Printer) :
    alert_suppressed now printer = false ↔
      ∃ cp, printer.current_print = some cp ∧ printer.watching = true ∧
        cp.alert_muted_at = none ∧
        ALERT_COOLDOWN_SECONDS ≤ now - cp.alert_acknowledged_at.getD 0 := by
  unfold alert_suppressed
  cases hw : printer.watching with
  | false => simp [hw]
  | true =>
    cases hcp : printer.current_print with
    | none => simp
    | some cp =>
      cases hm : cp.alert_muted_at with
      | some t => simp [hm]
      | none => simp [hm, not_lt]

/-- The only way `alert_if_needed` produces a nonempty trace: the printer is
not suppressed, the re-alert gate is open, the alert timestamp is written and
one warning notification is sent. -/
theorem alert_if_needed_fire (now : Int) (printer p' : Printer) (tr : List Event)
    (heq : alert_if_needed now printer = (p', tr)) (hne : tr ≠ []) :
    ∃ cp, printer.current_print = some cp ∧
      printer.watching = true ∧ cp.alert_muted_at = none ∧
      ALERT_COOLDOWN_SECONDS ≤ now - cp.alert_acknowledged_at.getD 0 ∧
      ¬ cp.alerted_at.getD 0 > cp.alert_acknowledged_at.getD 1 ∧
      p' = { printer with current_print := some { cp with alerted_at := some now } } ∧
      tr = [Event.setAlertAt now, Event.notify true false] := by
  by_cases hs : alert_suppressed now printer = true
  · rw [alert_if_needed_of_suppressed now printer hs] at heq
    cases heq
    exact absurd rfl hne
  · have hs' : alert_suppressed now printer = false := by
      cases h : alert_suppressed now printer
      · rfl
      · exact absurd h hs
    obtain ⟨cp, hcp, hw, hm, hc⟩ := (alert_suppressed_eq_false_iff now printer).mp hs'
    unfold alert_if_needed at heq
    rw [hs', hcp] at heq
    simp only [Bool.false_eq_true, if_false] at heq
    by_cases hgate : cp.alerted_at.getD 0 > cp.alert_acknowledged_at.getD 1
    · rw [if_pos hgate] at heq
      cases heq
      exact absurd rfl hne
    · rw [if_neg hgate] at heq
      refine ⟨cp, hcp, hw, hm, hc, hgate, ?_, ?_⟩
      · have : (Printer.set_alert printer now).1 =
            { printer with current_print := some { cp with alerted_at := some now } } := by
          unfold Printer.set_alert
          rw [hcp]
        rw [← this]
        exact (congrArg Prod.fst heq.symm)
      · have h2 : (Printer.set_alert printer now).2 = [Event.setAlertAt now] := by
          unfold Printer.set_alert
          rw [hcp]
        have := congrArg Prod.snd heq
        simp only at this
        rw [h2] at this
        exact this.symm

/-- Whether an event is a notification dispatch. -/
def Event.isNotify : Event → Bool
  | Event.notify _ _ => true
  | _ => false

/-- Whether an event writes `paused_at`. -/
def Event.isSetPaused : Event → Bool
  | Event.setPausedAt _ => true
  | _ => false

theorem alert_suppressed_false_of_false (o : Option Int) (now₁ : Int)
    (h : ALERT_COOLDOWN_SECONDS ≤ now₁ - o.getD 0) : o.getD 1 < now₁ := by
  cases o <;> simp [ALERT_COOLDOWN_SECONDS] at h ⊢ <;> omega

theorem alert_if_needed_gated (now : Int) (printer : Printer) (cp : PrintSession)
    (hcp : printer.current_print = some cp)
    (hsup : alert_suppressed now printer = false)
    (hgate : cp.alerted_at.getD 0 > cp.alert_acknowledged_at.getD 1) :
    alert_if_needed now printer = (printer, []) := by
  unfold alert_if_needed
  rw [hsup, hcp]
  simp only [Bool.false_eq_true, if_false]
  rw [if_pos hgate]

theorem alert_if_needed_fire_eq (now : Int) (printer : Printer) (cp : PrintSession)
    (hcp : printer.current_print = some cp)
    (hsup : alert_suppressed now printer = false)
    (hgate : ¬ cp.alerted_at.getD 0 > cp.alert_acknowledged_at.getD 1) :
    alert_if_needed now printer =
      ({ printer with current_print := some { cp with alerted_at := some now } },
       [Event.setAlertAt now, Event.notify true false]) := by
  unfold alert_if_needed
  rw [hsup, hcp]
  simp only [Bool.false_eq_true, if_false]
  rw [if_neg hgate]
  simp [Printer.set_alert, hcp]

theorem pause_if_needed_pause_eq (now : Int) (printer : Printer) (cp : PrintSession)
    (hcp : printer.current_print = some cp)
    (hsup : alert_suppressed now printer = false)
    (hact : printer.action_on_failure = ActionOnFailure.PAUSE)
    (hpause : cp.paused_at = none) :
    pause_if_needed now printer =
      ({ printer with current_print := some { cp with paused_at := some now, alerted_at := some now } },
       [Event.pauseCommand, Event.setPausedAt now, Event.setAlertAt now,
        Event.notify false true]) := by
  unfold pause_if_needed
  rw [hsup, hcp]
  simp only [Bool.false_eq_true, if_false]
  rw [if_pos ⟨hact, hpause⟩]
  simp [Printer.pause_print, Printer.set_alert, hcp, hpause]

theorem pause_if_needed_gated (now : Int) (printer : Printer) (cp : PrintSession)
    (hcp : printer.current_print = some cp)
    (hsup : alert_suppressed now printer = false)
    (hnp : ¬ (printer.action_on_failure = ActionOnFailure.PAUSE ∧ cp.paused_at = none))
    (hgate : cp.alerted_at.getD 0 > cp.alert_acknowledged_at.getD 1) :
    pause_if_needed now printer = (printer, []) := by
  unfold pause_if_needed
  rw [hsup, hcp]
  simp only [Bool.false_eq_true, if_false]
  rw [if_neg hnp, if_neg (not_not_intro hgate)]

theorem pause_if_needed_else_fire_eq (now : Int) (printer : Printer) (cp : PrintSession)
    (hcp : printer.current_print = some cp)
    (hsup : alert_suppressed now printer = false)
    (hnp : ¬ (printer.action_on_failure = ActionOnFailure.PAUSE ∧ cp.paused_at = none))
    (hgate : ¬ cp.alerted_at.getD 0 > cp.alert_acknowledged_at.getD 1) :
    pause_if_needed now printer =
      ({ printer with current_print := some { cp with alerted_at := some now } },
       [Event.setAlertAt now, Event.notify false false]) := by
  unfold pause_if_needed
  rw [hsup, hcp]
  simp only [Bool.false_eq_true, if_false]
  rw [if_neg hnp, if_pos hgate]
  simp [Printer.set_alert, hcp]

/-- The two ways `pause_if_needed` produces a nonempty trace. -/
theorem pause_if_needed_fire (now : Int) (printer p' : Printer) (tr : List Event)
    (heq : pause_if_needed now printer = (p', tr)) (hne : tr ≠ []) :
    ∃ cp, printer.current_print = some cp ∧
      ((p' = { printer with current_print := some { cp with paused_at := some now, alerted_at := some now } } ∧
        tr = [Event.pauseCommand, Event.setPausedAt now, Event.setAlertAt now,
          Event.notify false true]) ∨
       (p' = { printer with current_print := some { cp with alerted_at := some now } } ∧
        tr = [Event.setAlertAt now, Event.notify false false])) := by
  by_cases hs : alert_suppressed now printer = true
  · rw [pause_if_needed_of_suppressed now printer hs] at heq
    injection heq with h1 h2
    exact absurd h2.symm hne
  · have hs' : alert_suppressed now printer = false := by
      cases h : alert_suppressed now printer
      · rfl
      · exact absurd h hs
    obtain ⟨cp, hcp, hw, hm, hc⟩ := (alert_suppressed_eq_false_iff now printer).mp hs'
    refine ⟨cp, hcp, ?_⟩
    by_cases hb : printer.action_on_failure = ActionOnFailure.PAUSE ∧ cp.paused_at = none
    · left
      rw [pause_if_needed_pause_eq now printer cp hcp hs' hb.1 hb.2] at heq
      injection heq with h1 h2
      exact ⟨h1.symm, h2.symm⟩
    · right
      by_cases hg : cp.alerted_at.getD 0 > cp.alert_acknowledged_at.getD 1
      · rw [pause_if_needed_gated now printer cp hcp hs' hb hg] at heq
        injection heq with h1 h2
        exact absurd h2.symm hne
      · rw [pause_if_needed_else_fire_eq now printer cp hcp hs' hb hg] at heq
        injection heq with h1 h2
        exact ⟨h1.symm, h2.symm⟩

/-! ### Claim theorems -/

/-- C2: `alert_suppressed` holds exactly when the printer is not watching, or
has no current print, or the print is muted, or `now` is within 120 seconds of
the last acknowledgment (epoch zero when never acknowledged); and a suppressed
printer gets no action at all from `alert_if_needed` or `pause_if_needed`:
state unchanged, no events. -/
theorem spec_c2_suppression (now : Int) (printer : Printer) :
    (alert_suppressed now printer = true ↔
      (printer.watching = false ∨ printer.current_print = none ∨
        ∃ cp, printer.current_print = some cp ∧
          (cp.alert_muted_at ≠ none ∨
            now - cp.alert_acknowledged_at.getD 0 < ALERT_COOLDOWN_SECONDS))) ∧
    (alert_suppressed now printer = true →
      alert_if_needed now printer = (printer, []) ∧
      pause_if_needed now printer = (printer, [])) := by
  constructor
  · unfold alert_suppressed
    cases hw : printer.watching with
    | false => simp
    | true =>
      cases hcp : printer.current_print with
      | none => simp
      | some cp =>
        cases hm : cp.alert_muted_at with
        | some t => simp [hm]
        | none => simp [hm]
  · intro h
    exact ⟨alert_if_needed_of_suppressed now printer h,
      pause_if_needed_of_suppressed now printer h⟩

/-- C2 witness: a muted print is suppressed, with no action taken. -/
theorem spec_c2_suppression_witness :
    alert_if_needed 1000 (mkPrinter ActionOnFailure.ALERT (some { alert_muted_at := some 500 })) =
      (mkPrinter ActionOnFailure.ALERT (some { alert_muted_at := some 500 }), []) ∧
    pause_if_needed 1000 (mkPrinter ActionOnFailure.ALERT (some { alert_muted_at := some 500 })) =
      (mkPrinter ActionOnFailure.ALERT (some { alert_muted_at := some 500 }), []) :=
  (spec_c2_suppression 1000 _).2 (by decide)

/-- C3: on a non-suppressed printer with `action_on_failure = PAUSE` and an
unpaused current print, `pause_if_needed` issues the pause command, sets
`paused_at` and `alerted_at` to now, and sends one notification with
`is_warning = False`, `print_paused = True` — with no hypothesis on the
re-alert gate, so this fires even when an earlier alert is unacknowledged. -/
theorem spec_c3_pause_path (now : Int) (printer : Printer) (cp : PrintSession)
    (hcp : printer.current_print = some cp)
    (hsup : alert_suppressed now printer = false)
    (hact : printer.action_on_failure = ActionOnFailure.PAUSE)
    (hpause : cp.paused_at = none) :
    pause_if_needed now printer =
      ({ printer with current_print := some { cp with paused_at := some now, alerted_at := some now } },
       [Event.pauseCommand, Event.setPausedAt now, Event.setAlertAt now,
        Event.notify false true]) := by
  unfold pause_if_needed
  rw [hsup, hcp]
  simp only [Bool.false_eq_true, if_false]
  rw [if_pos ⟨hact, hpause⟩]
  simp [Printer.pause_print, Printer.set_alert, hcp, hpause]

/-- C3 witness: fires at a concrete input where `alerted_at = 900 >
alert_acknowledged_at = 130` (an unacknowledged alert is outstanding). -/
theorem spec_c3_pause_path_witness :
    pause_if_needed 1000
      (mkPrinter ActionOnFailure.PAUSE
        (some { alerted_at := some 900, alert_acknowledged_at := some 130 })) =
      (mkPrinter ActionOnFailure.PAUSE
        (some { paused_at := some 1000, alerted_at := some 1000, alert_acknowledged_at := some 130 }),
       [Event.pauseCommand, Event.setPausedAt 1000, Event.setAlertAt 1000,
        Event.notify false true]) :=
  spec_c3_pause_path 1000
    (mkPrinter ActionOnFailure.PAUSE
      (some { alerted_at := some 900, alert_acknowledged_at := some 130 }))
    { alerted_at := some 900, alert_acknowledged_at := some 130 }
    rfl (by decide) rfl rfl

/-- C7: a frame for a printer that should not be watched or is not actively
printing is never scored: the response is ok, printer and prediction state are
untouched, and the only effects are the raw-image save and the latest-snapshot
publish — no inference call, no notification, no pause, no count increment. -/
theorem spec_c7_skip_path (ef : ℚ) (now : Int) (printer : Printer)
    (stored_pred : Option PrinterPrediction)
    (inference : Except Unit (List Detection))
    (h : printer.should_watch = false ∨ printer.actively_printing = false) :
    post ef now printer stored_pred inference =
      { response := Except.ok (), printer := printer, stored_pred := stored_pred,
        events := [Event.savedRaw, Event.publishedPic] } := by
  unfold post
  rw [if_pos h]

/-- C7 witness. -/
theorem spec_c7_skip_path_witness :
    post 2 1000 { mkPrinter ActionOnFailure.PAUSE (some {}) with should_watch := false }
      none (Except.ok [{ label := "failure", confidence := 1 }]) =
      { response := Except.ok (),
        printer := { mkPrinter ActionOnFailure.PAUSE (some {}) with should_watch := false },
        stored_pred := none,
        events := [Event.savedRaw, Event.publishedPic] } :=
  spec_c7_skip_path 2 1000 _ none _ (Or.inl rfl)

/-- C8: on the scored path, a failed inference call aborts the frame as a hard
error before any scoring: the prediction state is not updated, no dispatch is
evaluated, no timestamp or count is mutated; only the raw save and the failed
call itself happened. -/
theorem spec_c8_inference_abort (ef : ℚ) (now : Int) (printer : Printer)
    (stored_pred : Option PrinterPrediction) (e : Unit)
    (hw : printer.should_watch = true) (ha : printer.actively_printing = true) :
    post ef now printer stored_pred (Except.error e) =
      { response := Except.error PipelineError.inferenceFailure,
        printer := printer, stored_pred := stored_pred,
        events := [Event.savedRaw, Event.inferenceCall] } := by
  unfold post
  rw [if_neg (by simp [hw, ha])]

/-- C8 witness. -/
theorem spec_c8_inference_abort_witness :
    post 2 1000 (mkPrinter ActionOnFailure.PAUSE (some {})) none (Except.error ()) =
      { response := Except.error PipelineError.inferenceFailure,
        printer := mkPrinter ActionOnFailure.PAUSE (some {}),
        stored_pred := none,
        events := [Event.savedRaw, Event.inferenceCall] } :=
  spec_c8_inference_abort 2 1000 _ none () rfl rfl

/-- C10: a scored frame for an actively-printing, watched printer whose
`current_print` is `None` is tolerated by the suppression gate (which returns
true) but crashes at the final prediction-count increment, so the request
errors instead of returning ok. -/
theorem spec_c10_none_dereference (ef : ℚ) (now : Int) (printer : Printer)
    (stored_pred : Option PrinterPrediction) (detections : List Detection)
    (hw : printer.should_watch = true) (ha : printer.actively_printing = true)
    (hcp : printer.current_print = none) :
    alert_suppressed now printer = true ∧
    (post ef now printer stored_pred (Except.ok detections)).response =
      Except.error PipelineError.noneDereference := by
  have hs := alert_suppressed_of_none now printer hcp
  refine ⟨hs, ?_⟩
  unfold post
  rw [if_neg (by simp [hw, ha])]
  simp only [pause_if_needed_of_suppressed now printer hs,
    alert_if_needed_of_suppressed now printer hs, ite_self, hcp]

/-- C10 witness. -/
theorem spec_c10_none_dereference_witness :
    alert_suppressed 1000 (mkPrinter ActionOnFailure.PAUSE none) = true ∧
    (post 2 1000 (mkPrinter ActionOnFailure.PAUSE none)
      none (Except.ok [])).response = Except.error PipelineError.noneDereference :=
  spec_c10_none_dereference 2 1000 _ none [] rfl rfl rfl

/-- C4: after an alert fires at `now₁` and before any later acknowledgment, a
later failing frame produces no notification on the loose path and on the
strict non-pause path; after an acknowledgment at `a ≥ now₁` and once the
cooldown has passed, a failing frame alerts again; and a never-alerted,
never-acknowledged session's defaults (`last_alerted = 0`,
`last_acknowledged = 1`) leave the gate open for the first alert. -/
theorem spec_c4_realert_gate :
    (∀ (now₁ now₂ : Int) (printer p' : Printer) (tr : List Event),
      alert_if_needed now₁ printer = (p', tr) → tr ≠ [] → now₁ ≤ now₂ →
      (alert_if_needed now₂ p').2 = [] ∧
      (∀ cp', p'.current_print = some cp' →
        ¬ (p'.action_on_failure = ActionOnFailure.PAUSE ∧ cp'.paused_at = none) →
        (pause_if_needed now₂ p').2 = [])) ∧
    (∀ (now₁ a now₃ : Int) (printer p' : Printer) (tr : List Event),
      alert_if_needed now₁ printer = (p', tr) → tr ≠ [] →
      now₁ ≤ a → a + ALERT_COOLDOWN_SECONDS ≤ now₃ →
      (alert_if_needed now₃ (p'.acknowledge a)).2 =
        [Event.setAlertAt now₃, Event.notify true false]) ∧
    (∀ (now : Int) (printer : Printer) (cp : PrintSession),
      printer.current_print = some cp → cp.alerted_at = none →
      cp.alert_acknowledged_at = none → alert_suppressed now printer = false →
      (alert_if_needed now printer).2 =
        [Event.setAlertAt now, Event.notify true false]) := by
  refine ⟨?_, ?_, ?_⟩
  · intro now₁ now₂ printer p' tr heq hne hle
    obtain ⟨cp, hcp, hw, hm, hc, hgate, hp', htr⟩ :=
      alert_if_needed_fire now₁ printer p' tr heq hne
    subst hp'
    have hcp' : ({ printer with current_print := some { cp with alerted_at := some now₁ } } : Printer).current_print
        = some { cp with alerted_at := some now₁ } := rfl
    have hsup₂ : alert_suppressed now₂
        { printer with current_print := some { cp with alerted_at := some now₁ } } = false := by
      refine (alert_suppressed_eq_false_iff now₂ _).mpr
        ⟨{ cp with alerted_at := some now₁ }, rfl, hw, hm, ?_⟩
      show ALERT_COOLDOWN_SECONDS ≤ now₂ - cp.alert_acknowledged_at.getD 0
      omega
    have hgate₂ : ({ cp with alerted_at := some now₁ } : PrintSession).alerted_at.getD 0 >
        ({ cp with alerted_at := some now₁ } : PrintSession).alert_acknowledged_at.getD 1 :=
      alert_suppressed_false_of_false cp.alert_acknowledged_at now₁ hc
    constructor
    · rw [alert_if_needed_gated now₂ _ _ hcp' hsup₂ hgate₂]
    · intro cp' hcp'' hnp
      have hcpeq : cp' = { cp with alerted_at := some now₁ } := by
        rw [hcp'] at hcp''
        exact (Option.some.inj hcp'').symm
      subst hcpeq
      rw [pause_if_needed_gated now₂ _ _ hcp' hsup₂ hnp hgate₂]
  · intro now₁ a now₃ printer p' tr heq hne hla hcool
    obtain ⟨cp, hcp, hw, hm, hc, hgate, hp', htr⟩ :=
      alert_if_needed_fire now₁ printer p' tr heq hne
    subst hp'
    have hack : ({ printer with current_print := some { cp with alerted_at := some now₁ } } : Printer).acknowledge a
        = { printer with current_print := some { cp with alerted_at := some now₁, alert_acknowledged_at := some a } } := rfl
    rw [hack]
    have hsup₃ : alert_suppressed now₃
        { printer with current_print := some { cp with alerted_at := some now₁, alert_acknowledged_at := some a } } = false := by
      refine (alert_suppressed_eq_false_iff now₃ _).mpr
        ⟨{ cp with alerted_at := some now₁, alert_acknowledged_at := some a }, rfl, hw, hm, ?_⟩
      show ALERT_COOLDOWN_SECONDS ≤ now₃ - a
      omega
    have hgate₃ : ¬ ({ cp with alerted_at := some now₁, alert_acknowledged_at := some a } : PrintSession).alerted_at.getD 0 >
        ({ cp with alerted_at := some now₁, alert_acknowledged_at := some a } : PrintSession).alert_acknowledged_at.getD 1 := by
      show ¬ now₁ > a
      omega
    rw [alert_if_needed_fire_eq now₃ _ _ rfl hsup₃ hgate₃]
  · intro now printer cp hcp halert hack hsup
    have hgate : ¬ cp.alerted_at.getD 0 > cp.alert_acknowledged_at.getD 1 := by
      rw [halert, hack]
      simp
    rw [alert_if_needed_fire_eq now printer cp hcp hsup hgate]

/-- C4 witness: a first alert at t=200 (never acknowledged) gates a second
frame at t=210 on both paths; acknowledging at t=300 re-opens the gate for a
frame at t=500; and a fresh session alerts at t=200. -/
theorem spec_c4_realert_gate_witness :
    (alert_if_needed 210 (mkPrinter ActionOnFailure.ALERT (some { alerted_at := some 200 }))).2 = [] ∧
    (pause_if_needed 210 (mkPrinter ActionOnFailure.ALERT (some { alerted_at := some 200 }))).2 = [] ∧
    (alert_if_needed 500 (mkPrinter ActionOnFailure.ALERT
        (some { alerted_at := some 200, alert_acknowledged_at := some 300 }))).2 =
      [Event.setAlertAt 500, Event.notify true false] ∧
    (alert_if_needed 200 (mkPrinter ActionOnFailure.ALERT (some {}))).2 =
      [Event.setAlertAt 200, Event.notify true false] := by
  refine ⟨?_, ?_, ?_, ?_⟩
  · exact (spec_c4_realert_gate.1 200 210 (mkPrinter ActionOnFailure.ALERT (some {}))
      (mkPrinter ActionOnFailure.ALERT (some { alerted_at := some 200 }))
      [Event.setAlertAt 200, Event.notify true false] rfl (by decide) (by decide)).1
  · exact (spec_c4_realert_gate.1 200 210 (mkPrinter ActionOnFailure.ALERT (some {}))
      (mkPrinter ActionOnFailure.ALERT (some { alerted_at := some 200 }))
      [Event.setAlertAt 200, Event.notify true false] rfl (by decide) (by decide)).2
      { alerted_at := some 200 } rfl (by decide)
  · exact spec_c4_realert_gate.2.1 200 300 500 (mkPrinter ActionOnFailure.ALERT (some {}))
      (mkPrinter ActionOnFailure.ALERT (some { alerted_at := some 200 }))
      [Event.setAlertAt 200, Event.notify true false] rfl (by decide) (by decide) (by decide)
  · exact spec_c4_realert_gate.2.2 200 (mkPrinter ActionOnFailure.ALERT (some {})) {}
      rfl rfl rfl (by decide)

/-- C5: two consecutive strictly-failing, non-suppressed frames on a
PAUSE-configured printer: the first frame issues the pause command, sets
`paused_at` and `alerted_at` and notifies; the second frame is a complete
no-op (the pause command is issued exactly once, `paused_at` written exactly
once, exactly one notification over both frames). -/
theorem spec_c5_pause_idempotent (now₁ now₂ : Int) (printer : Printer) (cp : PrintSession)
    (hcp : printer.current_print = some cp)
    (hact : printer.action_on_failure = ActionOnFailure.PAUSE)
    (hpause : cp.paused_at = none)
    (hsup : alert_suppressed now₁ printer = false)
    (hle : now₁ ≤ now₂) :
    ∀ p₁ tr₁, pause_if_needed now₁ printer = (p₁, tr₁) →
      tr₁ = [Event.pauseCommand, Event.setPausedAt now₁, Event.setAlertAt now₁,
        Event.notify false true] ∧
      pause_if_needed now₂ p₁ = (p₁, []) ∧
      (tr₁ ++ (pause_if_needed now₂ p₁).2).count Event.pauseCommand = 1 ∧
      (tr₁ ++ (pause_if_needed now₂ p₁).2).countP Event.isSetPaused = 1 ∧
      (tr₁ ++ (pause_if_needed now₂ p₁).2).countP Event.isNotify = 1 := by
  intro p₁ tr₁ heq
  rw [pause_if_needed_pause_eq now₁ printer cp hcp hsup hact hpause] at heq
  injection heq with h1 h2
  subst h1
  subst h2
  obtain ⟨cp0, hcp0, hw, hm, hc⟩ := (alert_suppressed_eq_false_iff now₁ printer).mp hsup
  have hcpeq : cp0 = cp := by
    rw [hcp] at hcp0
    exact (Option.some.inj hcp0).symm
  subst hcpeq
  have hcp₁ : ({ printer with current_print := some { cp0 with paused_at := some now₁, alerted_at := some now₁ } } : Printer).current_print
      = some { cp0 with paused_at := some now₁, alerted_at := some now₁ } := rfl
  have hsup₂ : alert_suppressed now₂
      { printer with current_print := some { cp0 with paused_at := some now₁, alerted_at := some now₁ } } = false := by
    refine (alert_suppressed_eq_false_iff now₂ _).mpr
      ⟨{ cp0 with paused_at := some now₁, alerted_at := some now₁ }, rfl, hw, hm, ?_⟩
    show ALERT_COOLDOWN_SECONDS ≤ now₂ - cp0.alert_acknowledged_at.getD 0
    omega
  have hnp : ¬ (({ printer with current_print := some { cp0 with paused_at := some now₁, alerted_at := some now₁ } } : Printer).action_on_failure
        = ActionOnFailure.PAUSE ∧
      ({ cp0 with paused_at := some now₁, alerted_at := some now₁ } : PrintSession).paused_at = none) := by
    intro h
    exact Option.some_ne_none now₁ h.2
  have hgate₂ : ({ cp0 with paused_at := some now₁, alerted_at := some now₁ } : PrintSession).alerted_at.getD 0 >
      ({ cp0 with paused_at := some now₁, alerted_at := some now₁ } : PrintSession).alert_acknowledged_at.getD 1 :=
    alert_suppressed_false_of_false cp0.alert_acknowledged_at now₁ hc
  have h2nd := pause_if_needed_gated now₂ _ _ hcp₁ hsup₂ hnp hgate₂
  refine ⟨rfl, h2nd, ?_, ?_, ?_⟩ <;> rw [h2nd] <;>
    simp [List.count_cons, Event.isSetPaused, Event.isNotify]

/-- C5 witness. -/
theorem spec_c5_pause_idempotent_witness :
    [Event.pauseCommand, Event.setPausedAt 200, Event.setAlertAt 200,
        Event.notify false true] =
      [Event.pauseCommand, Event.setPausedAt 200, Event.setAlertAt 200,
        Event.notify false true] ∧
    pause_if_needed 260 (mkPrinter ActionOnFailure.PAUSE
        (some { paused_at := some 200, alerted_at := some 200 })) =
      (mkPrinter ActionOnFailure.PAUSE
        (some { paused_at := some 200, alerted_at := some 200 }), []) ∧
    ([Event.pauseCommand, Event.setPausedAt 200, Event.setAlertAt 200,
        Event.notify false true] ++
      (pause_if_needed 260 (mkPrinter ActionOnFailure.PAUSE
        (some { paused_at := some 200, alerted_at := some 200 }))).2).count
        Event.pauseCommand = 1 ∧
    ([Event.pauseCommand, Event.setPausedAt 200, Event.setAlertAt 200,
        Event.notify false true] ++
      (pause_if_needed 260 (mkPrinter ActionOnFailure.PAUSE
        (some { paused_at := some 200, alerted_at := some 200 }))).2).countP
        Event.isSetPaused = 1 ∧
    ([Event.pauseCommand, Event.setPausedAt 200, Event.setAlertAt 200,
        Event.notify false true] ++
      (pause_if_needed 260 (mkPrinter ActionOnFailure.PAUSE
        (some { paused_at := some 200, alerted_at := some 200 }))).2).countP
        Event.isNotify = 1 :=
  spec_c5_pause_idempotent 200 260 (mkPrinter ActionOnFailure.PAUSE (some {})) {}
    rfl rfl rfl (by decide) (by decide)
    (mkPrinter ActionOnFailure.PAUSE (some { paused_at := some 200, alerted_at := some 200 }))
    [Event.pauseCommand, Event.setPausedAt 200, Event.setAlertAt 200, Event.notify false true]
    rfl

/-- C9: in every branch of `alert_if_needed` and `pause_if_needed` that sends
a failure alert, the timestamp mutations come strictly before the
notification dispatch, which is the final step: the trace is mutations
followed by one `notify`, `set_alert` has already run (`alerted_at = now` in
the post-state, and `paused_at = now` whenever a pause was recorded), so a
delivery failure cannot roll them back. -/
theorem spec_c9_mutation_before_notify (now : Int) (printer p' : Printer) (tr : List Event)
    (heq : alert_if_needed now printer = (p', tr) ∨ pause_if_needed now printer = (p', tr))
    (hn : ∃ w pp, Event.notify w pp ∈ tr) :
    ∃ pre w pp, tr = pre ++ [Event.notify w pp] ∧ Event.setAlertAt now ∈ pre ∧
      ∃ cp', p'.current_print = some cp' ∧ cp'.alerted_at = some now ∧
        (Event.setPausedAt now ∈ pre → cp'.paused_at = some now) := by
  have hne : tr ≠ [] := by
    obtain ⟨w, pp, hw⟩ := hn
    intro h
    rw [h] at hw
    simp at hw
  cases heq with
  | inl h =>
    obtain ⟨cp, hcp, _, _, _, _, hp', htr⟩ := alert_if_needed_fire now printer p' tr h hne
    subst hp'
    subst htr
    refine ⟨[Event.setAlertAt now], true, false, rfl, by simp, _, rfl, rfl, ?_⟩
    intro hmem
    rw [List.mem_singleton] at hmem
    cases hmem
  | inr h =>
    obtain ⟨cp, hcp, hcases⟩ := pause_if_needed_fire now printer p' tr h hne
    cases hcases with
    | inl hc =>
      obtain ⟨hp', htr⟩ := hc
      subst hp'
      subst htr
      exact ⟨[Event.pauseCommand, Event.setPausedAt now, Event.setAlertAt now],
        false, true, rfl, by simp, _, rfl, rfl, fun _ => rfl⟩
    | inr hc =>
      obtain ⟨hp', htr⟩ := hc
      subst hp'
      subst htr
      refine ⟨[Event.setAlertAt now], false, false, rfl, by simp, _, rfl, rfl, ?_⟩
      intro hmem
      rw [List.mem_singleton] at hmem
      cases hmem

/-- C9 witness. -/
theorem spec_c9_mutation_before_notify_witness :
    ∃ pre w pp,
      [Event.setAlertAt 200, Event.notify true false] = pre ++ [Event.notify w pp] ∧
      Event.setAlertAt 200 ∈ pre ∧
      ∃ cp', (mkPrinter ActionOnFailure.ALERT
          (some { alerted_at := some 200 })).current_print = some cp' ∧
        cp'.alerted_at = some 200 ∧
        (Event.setPausedAt 200 ∈ pre → cp'.paused_at = some 200) :=
  spec_c9_mutation_before_notify 200 (mkPrinter ActionOnFailure.ALERT (some {}))
    (mkPrinter ActionOnFailure.ALERT (some { alerted_at := some 200 }))
    [Event.setAlertAt 200, Event.notify true false]
    (Or.inl rfl) ⟨true, false, by decide⟩

/-- Either `alert_if_needed` is a no-op, or it fires. -/
theorem alert_if_needed_cases (now : Int) (printer : Printer) :
    alert_if_needed now printer = (printer, []) ∨
    ∃ cp, printer.current_print = some cp ∧
      alert_if_needed now printer =
        ({ printer with current_print := some { cp with alerted_at := some now } },
         [Event.setAlertAt now, Event.notify true false]) := by
  by_cases hs : alert_suppressed now printer = true
  · exact Or.inl (alert_if_needed_of_suppressed now printer hs)
  · have hs' : alert_suppressed now printer = false := by
      cases h : alert_suppressed now printer
      · rfl
      · exact absurd h hs
    obtain ⟨cp, hcp, hw, hm, hc⟩ := (alert_suppressed_eq_false_iff now printer).mp hs'
    by_cases hg : cp.alerted_at.getD 0 > cp.alert_acknowledged_at.getD 1
    · exact Or.inl (alert_if_needed_gated now printer cp hcp hs' hg)
    · exact Or.inr ⟨cp, hcp, alert_if_needed_fire_eq now printer cp hcp hs' hg⟩

/-- Either `pause_if_needed` is a no-op, or it takes the pause branch, or it
takes the alert-only branch. -/
theorem pause_if_needed_cases (now : Int) (printer : Printer) :
    pause_if_needed now printer = (printer, []) ∨
    (∃ cp, printer.current_print = some cp ∧
      pause_if_needed now printer =
        ({ printer with current_print := some { cp with paused_at := some now, alerted_at := some now } },
         [Event.pauseCommand, Event.setPausedAt now, Event.setAlertAt now,
          Event.notify false true])) ∨
    (∃ cp, printer.current_print = some cp ∧
      pause_if_needed now printer =
        ({ printer with current_print := some { cp with alerted_at := some now } },
         [Event.setAlertAt now, Event.notify false false])) := by
  by_cases hs : alert_suppressed now printer = true
  · exact Or.inl (pause_if_needed_of_suppressed now printer hs)
  · have hs' : alert_suppressed now printer = false := by
      cases h : alert_suppressed now printer
      · rfl
      · exact absurd h hs
    obtain ⟨cp, hcp, hw, hm, hc⟩ := (alert_suppressed_eq_false_iff now printer).mp hs'
    by_cases hb : printer.action_on_failure = ActionOnFailure.PAUSE ∧ cp.paused_at = none
    · exact Or.inr (Or.inl ⟨cp, hcp,
        pause_if_needed_pause_eq now printer cp hcp hs' hb.1 hb.2⟩)
    · by_cases hg : cp.alerted_at.getD 0 > cp.alert_acknowledged_at.getD 1
      · exact Or.inl (pause_if_needed_gated now printer cp hcp hs' hb hg)
      · exact Or.inr (Or.inr ⟨cp, hcp,
          pause_if_needed_else_fire_eq now printer cp hcp hs' hb hg⟩)

theorem alert_if_needed_keeps_some (now : Int) (printer : Printer) (cp : PrintSession)
    (hcp : printer.current_print = some cp) :
    ∃ cp', (alert_if_needed now printer).1.current_print = some cp' := by
  rcases alert_if_needed_cases now printer with h | ⟨cp0, _, h⟩
  · rw [h]
    exact ⟨cp, hcp⟩
  · rw [h]
    exact ⟨{ cp0 with alerted_at := some now }, rfl⟩

theorem pause_if_needed_keeps_some (now : Int) (printer : Printer) (cp : PrintSession)
    (hcp : printer.current_print = some cp) :
    ∃ cp', (pause_if_needed now printer).1.current_print = some cp' := by
  rcases pause_if_needed_cases now printer with h | ⟨cp0, _, h⟩ | ⟨cp0, _, h⟩
  · rw [h]
    exact ⟨cp, hcp⟩
  · rw [h]
    exact ⟨{ cp0 with paused_at := some now, alerted_at := some now }, rfl⟩
  · rw [h]
    exact ⟨{ cp0 with alerted_at := some now }, rfl⟩

/-- Evaluation of a scored frame that is failing at the escalating factor:
the pipeline runs `pause_if_needed`. -/
theorem post_pause_branch (ef : ℚ) (now : Int) (printer : Printer)
    (stored_pred : Option PrinterPrediction) (detections : List Detection)
    (cp' : PrintSession)
    (hw : printer.should_watch = true) (ha : printer.actively_printing = true)
    (hf : is_failing (update_prediction_with_detections
        (stored_pred.getD PrinterPrediction.init) detections)
        printer.detective_sensitivity ef = true)
    (hcp' : (pause_if_needed now printer).1.current_print = some cp') :
    post ef now printer stored_pred (Except.ok detections) =
      { response := Except.ok (), printer := (pause_if_needed now printer).1,
        stored_pred := some (update_prediction_with_detections
          (stored_pred.getD PrinterPrediction.init) detections),
        events := [Event.savedRaw, Event.inferenceCall, Event.savedTagged,
          Event.publishedPic, Event.publishedPJson] ++ (pause_if_needed now printer).2
          ++ [Event.incrPredictionCount] } := by
  unfold post
  rw [if_neg (by simp [hw, ha])]
  simp only [hf, if_pos, if_true, hcp']

/-- Evaluation of a scored frame that is failing only at factor 1: the
pipeline runs `alert_if_needed`. -/
theorem post_alert_branch (ef : ℚ) (now : Int) (printer : Printer)
    (stored_pred : Option PrinterPrediction) (detections : List Detection)
    (cp' : PrintSession)
    (hw : printer.should_watch = true) (ha : printer.actively_printing = true)
    (hf2 : is_failing (update_prediction_with_detections
        (stored_pred.getD PrinterPrediction.init) detections)
        printer.detective_sensitivity ef = false)
    (hf1 : is_failing (update_prediction_with_detections
        (stored_pred.getD PrinterPrediction.init) detections)
        printer.detective_sensitivity 1 = true)
    (hcp' : (alert_if_needed now printer).1.current_print = some cp') :
    post ef now printer stored_pred (Except.ok detections) =
      { response := Except.ok (), printer := (alert_if_needed now printer).1,
        stored_pred := some (update_prediction_with_detections
          (stored_pred.getD PrinterPrediction.init) detections),
        events := [Event.savedRaw, Event.inferenceCall, Event.savedTagged,
          Event.publishedPic, Event.publishedPJson] ++ (alert_if_needed now printer).2
          ++ [Event.incrPredictionCount] } := by
  unfold post
  rw [if_neg (by simp [hw, ha])]
  simp only [hf2, hf1, Bool.false_eq_true, if_false, if_true, hcp']

/-- C1 amended: the dispatch assigns the tier at the configurable escalating
factor (> 1, the harder-to-trigger strict tier) to the pause path and the
factor-1 tier to the early-warning path: on a scored frame, `pause_if_needed`
runs exactly when `is_failing` holds at `escalating_factor`, and
`alert_if_needed` runs exactly when `is_failing` fails at `escalating_factor`
but holds at factor 1. -/
theorem spec_c1_amended (ef : ℚ) (now : Int) (printer : Printer)
    (stored_pred : Option PrinterPrediction) (detections : List Detection)
    (cp : PrintSession)
    (hw : printer.should_watch = true) (ha : printer.actively_printing = true)
    (hcp : printer.current_print = some cp) :
    (is_failing (update_prediction_with_detections
        (stored_pred.getD PrinterPrediction.init) detections)
        printer.detective_sensitivity ef = true →
      (post ef now printer stored_pred (Except.ok detections)).printer =
        (pause_if_needed now printer).1 ∧
      (post ef now printer stored_pred (Except.ok detections)).events =
        [Event.savedRaw, Event.inferenceCall, Event.savedTagged,
          Event.publishedPic, Event.publishedPJson] ++ (pause_if_needed now printer).2
          ++ [Event.incrPredictionCount]) ∧
    (is_failing (update_prediction_with_detections
        (stored_pred.getD PrinterPrediction.init) detections)
        printer.detective_sensitivity ef = false →
      is_failing (update_prediction_with_detections
        (stored_pred.getD PrinterPrediction.init) detections)
        printer.detective_sensitivity 1 = true →
      (post ef now printer stored_pred (Except.ok detections)).printer =
        (alert_if_needed now printer).1 ∧
      (post ef now printer stored_pred (Except.ok detections)).events =
        [Event.savedRaw, Event.inferenceCall, Event.savedTagged,
          Event.publishedPic, Event.publishedPJson] ++ (alert_if_needed now printer).2
          ++ [Event.incrPredictionCount]) := by
  constructor
  · intro hf
    obtain ⟨cp', hcp'⟩ := pause_if_needed_keeps_some now printer cp hcp
    rw [post_pause_branch ef now printer stored_pred detections cp' hw ha hf hcp']
    exact ⟨rfl, rfl⟩
  · intro hf2 hf1
    obtain ⟨cp', hcp'⟩ := alert_if_needed_keeps_some now printer cp hcp
    rw [post_alert_branch ef now printer stored_pred detections cp' hw ha hf2 hf1 hcp']
    exact ⟨rfl, rfl⟩

/-- C1 amended witness: a frame failing at the escalating factor 2 on a
PAUSE-configured printer takes the pause path. -/
theorem spec_c1_amended_witness :
    (post 2 1000 (mkPrinter ActionOnFailure.PAUSE (some {})) none
      (Except.ok [{ label := "failure", confidence := 10 }])).printer =
      (pause_if_needed 1000 (mkPrinter ActionOnFailure.PAUSE (some {}))).1 ∧
    (post 2 1000 (mkPrinter ActionOnFailure.PAUSE (some {})) none
      (Except.ok [{ label := "failure", confidence := 10 }])).events =
      [Event.savedRaw, Event.inferenceCall, Event.savedTagged,
        Event.publishedPic, Event.publishedPJson] ++
        (pause_if_needed 1000 (mkPrinter ActionOnFailure.PAUSE (some {}))).2
        ++ [Event.incrPredictionCount] :=
  (spec_c1_amended 2 1000 (mkPrinter ActionOnFailure.PAUSE (some {})) none
    [{ label := "failure", confidence := 10 }] {} rfl rfl rfl).1
    (by norm_num [update_prediction_with_detections, PrinterPrediction.init,
      is_failing, THRESHOLD_FAILING, mkPrinter])

/-- C1 as stated is false on the code: at a concrete scored frame that is
failing at the strict factor-1 tier (score 1/2 > threshold 2/5) but not at
the factor-2 tier (threshold 4/5), on a non-suppressed printer with
`action_on_failure = PAUSE` and no pause yet — exactly the situation in which
the claim requires `pause_if_needed` to run — the pipeline instead runs the
alert path: its event trace contains the warning notification
`notify true false` and no pause command, no `setPausedAt`, and no
`notify false true`. -/
theorem spec_c1_cex :
    is_failing (update_prediction_with_detections PrinterPrediction.init
      [{ label := "failure", confidence := 1/2 }]) 1 1 = true ∧
    is_failing (update_prediction_with_detections PrinterPrediction.init
      [{ label := "failure", confidence := 1/2 }]) 1 2 = false ∧
    (mkPrinter ActionOnFailure.PAUSE (some {})).action_on_failure = ActionOnFailure.PAUSE ∧
    alert_suppressed 1000 (mkPrinter ActionOnFailure.PAUSE (some {})) = false ∧
    (post 2 1000 (mkPrinter ActionOnFailure.PAUSE (some {})) none
      (Except.ok [{ label := "failure", confidence := 1/2 }])).events =
      [Event.savedRaw, Event.inferenceCall, Event.savedTagged, Event.publishedPic,
       Event.publishedPJson, Event.setAlertAt 1000, Event.notify true false,
       Event.incrPredictionCount] := by
  have h1 : is_failing (update_prediction_with_detections PrinterPrediction.init
      [{ label := "failure", confidence := 1/2 }]) 1 1 = true := by
    norm_num [update_prediction_with_detections, PrinterPrediction.init,
      is_failing, THRESHOLD_FAILING]
  have h2 : is_failing (update_prediction_with_detections PrinterPrediction.init
      [{ label := "failure", confidence := 1/2 }]) 1 2 = false := by
    norm_num [update_prediction_with_detections, PrinterPrediction.init,
      is_failing, THRESHOLD_FAILING]
  refine ⟨h1, h2, rfl, by decide, ?_⟩
  rw [post_alert_branch 2 1000 (mkPrinter ActionOnFailure.PAUSE (some {})) none
    [{ label := "failure", confidence := 1/2 }] { alerted_at := some 1000 }
    rfl rfl h2 h1 rfl]
  rfl

/-- C6 as stated is false on the modelled scorer: an evidence state whose
score 1/2 crosses the factor-1 threshold 2/5 but not the factor-5
threshold 2, so failing at factor 1 does not imply failing at factor 5. -/
theorem spec_c6_cex :
    is_failing { ewm_mean := 1/2, frame_num := 1 } 1 1 = true ∧
    is_failing { ewm_mean := 1/2, frame_num := 1 } 1 5 = false := by
  constructor <;> norm_num [is_failing, THRESHOLD_FAILING]

/-- C6 amended: the monotonicity runs in the opposite direction —
`is_failing` is antitone in the escalating factor.  For positive sensitivity
and `f ≤ f'`, any evidence state failing at the larger factor `f'` also fails
at the smaller factor `f`; in particular failing at factor 5 implies failing
at factor 1, so the smaller factor accepts a superset and the pause tier
(gated at the configurable factor > 1) is strictly harder to trigger than the
factor-1 early-warning tier. -/
theorem spec_c6_amended (prediction : PrinterPrediction) (s f f' : ℚ)
    (hs : 0 < s) (hff : f ≤ f') (h : is_failing prediction s f' = true) :
    is_failing prediction s f = true := by
  unfold is_failing at h ⊢
  by_cases hn : prediction.frame_num = 0
  · rw [if_pos hn] at h
    exact absurd h (by simp)
  · rw [if_neg hn] at h ⊢
    rw [decide_eq_true_eq] at h ⊢
    refine lt_of_le_of_lt ?_ h
    have hT : (0:ℚ) ≤ THRESHOLD_FAILING := by norm_num [THRESHOLD_FAILING]
    exact (div_le_div_iff_of_pos_right hs).mpr (mul_le_mul_of_nonneg_left hff hT)

/-- C6 amended witness: a state failing at factor 5, hence (with sensitivity
1 > 0 and 1 ≤ 5) also failing at factor 1. -/
theorem spec_c6_amended_witness :
    (0 : ℚ) < 1 ∧ (1 : ℚ) ≤ 5 ∧
    is_failing { ewm_mean := 10, frame_num := 1 } 1 5 = true ∧
    is_failing { ewm_mean := 10, frame_num := 1 } 1 1 = true :=
  ⟨by norm_num, by norm_num, by norm_num [is_failing, THRESHOLD_FAILING],
   spec_c6_amended { ewm_mean := 10, frame_num := 1 } 1 1 5 (by norm_num)
     (by norm_num) (by norm_num [is_failing, THRESHOLD_FAILING])⟩
